import Mathlib

/-!
Verification development for the bank-marketing classification service
(`app/main.py`, `src/features/engineering.py`, `src/features/preprocessing.py`,
`src/data/cleaning.py`, `src/training/train.py`, `scripts/package_model.py`).

The Python code is shallowly embedded: a pandas frame becomes a list of rows,
floats become real numbers (rationals where only equality/ordering matters),
the filesystem and the external mlflow loader become oracle functions, and
raising an exception becomes returning `Except.error`.
-/

namespace BankApp

/-! ## Feature engineering (`src/features/engineering.py`) -/

/-- A row of the tabular input, exposing the four columns that
`engineer_features` reads (`balance`, `campaign`, `duration`, `previous`);
all remaining columns are carried opaquely in `other` and are preserved
unchanged by the engineering step. -/
structure Row where
  balance : ℝ
  campaign : ℝ
  duration : ℝ
  previous : ℝ
  other : List (String × String)

/-- A row after `engineer_features`: the original row plus the four derived
columns added by the function. -/
structure EngRow where
  base : Row
  is_balance_positive : ℤ
  log_campaign : ℝ
  log_duration : ℝ
  has_previous_contact : ℤ

/-- Per-row computation of `engineer_features`: each derived cell depends only
on cells of the same row (`(balance > 0).astype(int)`, `np.log1p(campaign)`,
`np.log1p(duration)`, `(previous > 0).astype(int)`), with
`np.log1p x = Real.log (1 + x)`. -/
noncomputable def engineerRow (r : Row) : EngRow :=
  { base := r
    is_balance_positive := if r.balance > 0 then 1 else 0
    log_campaign := Real.log (1 + r.campaign)
    log_duration := Real.log (1 + r.duration)
    has_previous_contact := if r.previous > 0 then 1 else 0 }

/-- `engineer_features(df)`: the vectorised pandas column assignments act
cell-wise, so on the list-of-rows embedding they are a map of `engineerRow`. -/
noncomputable def engineer_features (df : List Row) : List EngRow :=
  df.map engineerRow

/-! ## Serving layer (`app/main.py`) -/

/-- The request body of `POST /predict` (pydantic model `CustomerFeatures`,
17 typed fields). -/
structure CustomerFeatures where
  age : ℤ
  job : String
  marital : String
  education : String
  default : String
  balance : ℝ
  housing : String
  loan : String
  contact : String
  day : ℤ
  month : String
  duration : ℤ
  campaign : ℤ
  pdays : ℤ
  previous : ℤ
  poutcome : String

/-- `pd.DataFrame([payload.model_dump()])` produces a single-row frame whose
numeric engineering inputs are the payload's `balance`, `campaign`,
`duration`, `previous`; the rest of the fields ride along unchanged. -/
def CustomerFeatures.toRow (p : CustomerFeatures) : Row :=
  { balance := p.balance
    campaign := (p.campaign : ℝ)
    duration := (p.duration : ℝ)
    previous := (p.previous : ℝ)
    other := [("age", toString p.age), ("job", p.job), ("marital", p.marital),
      ("education", p.education), ("default", p.default),
      ("housing", p.housing), ("loan", p.loan), ("contact", p.contact),
      ("day", toString p.day), ("month", p.month),
      ("pdays", toString p.pdays), ("poutcome", p.poutcome)] }

/-- `fastapi.HTTPException(status_code, detail)`. -/
structure HTTPException where
  status_code : ℕ
  detail : String
deriving DecidableEq

/-- The loaded mlflow model, abstracted to the positive-class probability it
returns for an engineered row: `model.predict_proba(df)[0][1]`. Probabilities
are exact rationals (every float is a rational, and the only arithmetic the
service performs on them is the comparison with 0.5). -/
def Model : Type := EngRow → ℚ

/-- The body of the `/predict` handler: reject with a 500 `HTTPException`
when `model_instance is None`, otherwise build the one-row frame, apply
`engineer_features`, read the positive-class probability and threshold it at
0.5 (`int(prediction_proba >= 0.5)`). -/
structure PredictResponse where
  probability : ℚ
  prediction : ℤ
deriving DecidableEq

instance : Inhabited EngRow :=
  ⟨{ base := { balance := 0, campaign := 0, duration := 0, previous := 0, other := [] }
     is_balance_positive := 0, log_campaign := 0, log_duration := 0,
     has_previous_contact := 0 }⟩

/-- The `/predict` endpoint (`predict` in `app/main.py`). -/
noncomputable def predict (model_instance : Option Model)
    (payload : CustomerFeatures) : Except HTTPException PredictResponse :=
  match model_instance with
  | none => .error { status_code := 500, detail := "Model not available." }
  | some m =>
    let data_frame := [payload.toRow]
    let engineered := engineer_features data_frame
    let prediction_proba : ℚ := m engineered.headI
    let prediction_label : ℤ := if prediction_proba ≥ (0.5 : ℚ) then 1 else 0
    .ok { probability := prediction_proba, prediction := prediction_label }

end BankApp

namespace BankApp

/-! ## Theorems for the serving and engineering claims -/

/-- C1: with a model loaded, `predict` returns `{probability, prediction}`
where `probability` is the pipeline's positive-class probability for the
engineered single-row input, `prediction = 1` iff `probability ≥ 0.5`
(so it is always 0 or 1, and probability exactly 0.5 gives prediction 1). -/
theorem predict_loaded_thresholds_at_half (m : Model) (payload : CustomerFeatures)
    (r : PredictResponse) (h : predict (some m) payload = .ok r) :
    r.probability = m (engineerRow payload.toRow) ∧
    (r.prediction = 1 ↔ r.probability ≥ (0.5 : ℚ)) ∧
    (r.prediction = 0 ∨ r.prediction = 1) ∧
    (r.probability = (0.5 : ℚ) → r.prediction = 1) := by
  have h' : r = (⟨m (engineerRow payload.toRow),
      if m (engineerRow payload.toRow) ≥ (0.5 : ℚ) then 1 else 0⟩ : PredictResponse) := by
    simpa [predict, engineer_features] using h.symm
  subst h'
  refine ⟨rfl, ?_, ?_, ?_⟩
  · constructor
    · intro h1
      by_contra hlt
      simp [hlt] at h1
    · intro hge
      simp [hge]
  · by_cases hge : m (engineerRow payload.toRow) ≥ (0.5 : ℚ) <;> simp [hge]
  · intro he
    simp only [PredictResponse.probability] at he
    simp [he]

/-- A concrete request body used to exercise the serving endpoint. -/
def samplePayload : CustomerFeatures :=
  { age := 30, job := "admin.", marital := "married", education := "tertiary",
    default := "no", balance := 100, housing := "yes", loan := "no",
    contact := "cellular", day := 5, month := "may", duration := 120,
    campaign := 2, pdays := -1, previous := 3, poutcome := "unknown" }

/-- Witness for C1: a concrete model returning exactly 0.5 on a concrete
payload yields prediction 1. -/
theorem predict_loaded_thresholds_at_half_witness :
    predict (some (fun _ => (0.5 : ℚ))) samplePayload =
      .ok (⟨(0.5 : ℚ), 1⟩ : PredictResponse) ∧ (1 : ℤ) = 1 := by
  have hok : predict (some (fun _ => (0.5 : ℚ))) samplePayload =
      .ok (⟨(0.5 : ℚ), 1⟩ : PredictResponse) := by
    simp [predict, engineer_features, samplePayload]
  refine ⟨hok, ?_⟩
  have h := predict_loaded_thresholds_at_half (fun _ => (0.5 : ℚ)) samplePayload _ hok
  exact h.2.2.2 rfl

/-- The first scenario row of the spec:
`{balance: -5, campaign: 0, duration: 0, previous: 0}`. -/
noncomputable def scenarioRow1 : Row := ⟨-5, 0, 0, 0, []⟩

/-- The second scenario row of the spec:
`{balance: 100, campaign: 2, duration: 120, previous: 3}`. -/
noncomputable def scenarioRow2 : Row := ⟨100, 2, 120, 3, []⟩

/-- C2: `engineer_features` extends every table with exactly the four derived
columns, computed per row by the stated formulas, the original columns
surviving unchanged; on the spec's two scenario rows the derived values are
`(0, 0, 0, 0)` and `(1, ln 3, ln 121, 1)`. -/
theorem engineer_features_adds_four_columns :
    (∀ df : List Row, engineer_features df = df.map engineerRow ∧
      (engineer_features df).map EngRow.base = df) ∧
    (∀ r : Row,
      (engineerRow r).base = r ∧
      (engineerRow r).is_balance_positive = (if r.balance > 0 then 1 else 0) ∧
      (engineerRow r).log_campaign = Real.log (1 + r.campaign) ∧
      (engineerRow r).log_duration = Real.log (1 + r.duration) ∧
      (engineerRow r).has_previous_contact = (if r.previous > 0 then 1 else 0)) ∧
    engineerRow scenarioRow1 = ⟨scenarioRow1, 0, 0, 0, 0⟩ ∧
    engineerRow scenarioRow2 = ⟨scenarioRow2, 1, Real.log 3, Real.log 121, 1⟩ := by
  refine ⟨?_, ?_, ?_, ?_⟩
  · intro df
    refine ⟨rfl, ?_⟩
    simp only [engineer_features, List.map_map]
    have : (EngRow.base ∘ engineerRow) = id := by
      funext r
      rfl
    simp [this]
  · intro r
    exact ⟨rfl, rfl, rfl, rfl, rfl⟩
  · simp only [engineerRow, scenarioRow1, EngRow.mk.injEq]
    norm_num
  · simp only [engineerRow, scenarioRow2, EngRow.mk.injEq]
    norm_num

/-- C3: feature engineering is row-independent — engineering the single-row
table holding row `i` of `df` gives exactly the singleton of row `i` of the
engineered full table — and the serving path routes its one-row frame through
this very same `engineer_features`. -/
theorem engineer_features_row_independent (df : List Row) (i : ℕ)
    (h : i < df.length) :
    (∃ h' : i < (engineer_features df).length,
      engineer_features [df.get ⟨i, h⟩] = [(engineer_features df).get ⟨i, h'⟩]) ∧
    (∀ (m : Model) (payload : CustomerFeatures),
      predict (some m) payload =
        Except.ok ⟨m ((engineer_features [payload.toRow]).headI),
          if m ((engineer_features [payload.toRow]).headI) ≥ (0.5 : ℚ)
          then 1 else 0⟩) := by
  constructor
  · refine ⟨by simpa [engineer_features] using h, ?_⟩
    simp [engineer_features]
  · intro m payload
    rfl

/-- Witness for C3 on a concrete two-row table at index 1. -/
theorem engineer_features_row_independent_witness :
    1 < ([scenarioRow1, scenarioRow2] : List Row).length ∧
    ((∃ h' : 1 < (engineer_features [scenarioRow1, scenarioRow2]).length,
      engineer_features
          [([scenarioRow1, scenarioRow2] : List Row).get ⟨1, by norm_num⟩] =
        [(engineer_features [scenarioRow1, scenarioRow2]).get ⟨1, h'⟩]) ∧
    (∀ (m : Model) (payload : CustomerFeatures),
      predict (some m) payload =
        Except.ok ⟨m ((engineer_features [payload.toRow]).headI),
          if m ((engineer_features [payload.toRow]).headI) ≥ (0.5 : ℚ)
          then 1 else 0⟩)) :=
  ⟨by norm_num,
   engineer_features_row_independent [scenarioRow1, scenarioRow2] 1 (by norm_num)⟩

/-- C4: while the model reference is absent, `/predict` raises the 500
`HTTPException` "Model not available." before touching any model, and never
returns a successful (default) prediction. -/
theorem predict_unloaded_rejects (payload : CustomerFeatures) :
    predict none payload =
      .error (⟨500, "Model not available."⟩ : HTTPException) ∧
    ∀ r : PredictResponse, predict none payload ≠ Except.ok r := by
  refine ⟨rfl, ?_⟩
  intro r hr
  simp [predict] at hr

/-! ## Model loading (`_load_model` in `app/main.py`) -/

/-- A candidate model source: a `pathlib.Path` entry or the raw `MODEL_URI`
string. -/
inductive Candidate where
  | path (p : String)
  | uri (u : String)
deriving DecidableEq

/-- The filesystem, abstracted to the two predicates `_load_model` consults
(`Path.is_dir` and `Path.exists`). -/
structure FileSystem where
  isDir : String → Bool
  pathExists : String → Bool

/-- `MODEL_DIR = BASE_DIR / "models"` from `src/config/settings.py`,
parameterised by the resolved `BASE_DIR`. -/
def MODEL_DIR (baseDir : String) : String := baseDir ++ "/models"

/-- An environment-variable candidate: Python's `if env:` drops both an unset
variable and an empty string. -/
def envCandidate (mk : String → Candidate) : Option String → List Candidate
  | none => []
  | some s => if s = "" then [] else [mk s]

/-- The ordered candidate list `_load_model` builds: the `MODEL_LOCAL_PATH`
override, then the `MODEL_URI` override, then the three fixed local paths. -/
def candidates (baseDir : String) (envLocal envUri : Option String) :
    List Candidate :=
  envCandidate Candidate.path envLocal ++ envCandidate Candidate.uri envUri ++
    [Candidate.path "model/bank_marketing_model", Candidate.path "model",
     Candidate.path (MODEL_DIR baseDir ++ "/bank_marketing_model")]

/-- Python's interpolation of an optional exception into the final message:
`None` prints as "None". -/
def pyShowOpt : Option String → String
  | none => "None"
  | some e => e

/-- The scan loop of `_load_model`: a `Path` candidate is loaded only when it
is a directory or an existing file (otherwise it is skipped silently, the
recorded exception untouched); a URI candidate is always attempted; a raised
load error is swallowed into `last_exception`; when the list is exhausted an
`HTTPException(500)` reporting only the last recorded exception is raised.
`loadFn` is the external `mlflow.sklearn.load_model`. -/
def loadAux {M : Type} (fs : FileSystem) (loadFn : Candidate → Except String M) :
    List Candidate → Option String → Except HTTPException M
  | [], lastExc =>
    .error { status_code := 500,
             detail := "Model could not be loaded. Last error: " ++ pyShowOpt lastExc }
  | c :: rest, lastExc =>
    match c with
    | .path p =>
      if fs.isDir p || fs.pathExists p then
        match loadFn (.path p) with
        | .ok m => .ok m
        | .error e => loadAux fs loadFn rest (some e)
      else loadAux fs loadFn rest lastExc
    | .uri u =>
      match loadFn (.uri u) with
      | .ok m => .ok m
      | .error e => loadAux fs loadFn rest (some e)

/-- `_load_model`: scan the candidate list with no exception recorded yet. -/
def load_model {M : Type} (baseDir : String) (envLocal envUri : Option String)
    (fs : FileSystem) (loadFn : Candidate → Except String M) :
    Except HTTPException M :=
  loadAux fs loadFn (candidates baseDir envLocal envUri) none

/-- Whether `_load_model` attempts to load a candidate at all: `Path`
candidates only when present on disk, URI candidates always. -/
def attempted (fs : FileSystem) : Candidate → Bool
  | .path p => fs.isDir p || fs.pathExists p
  | .uri _ => true

/-- The model a candidate contributes: `some m` exactly when it is attempted
and the external load succeeds. -/
def loadSuccess {M : Type} (fs : FileSystem)
    (loadFn : Candidate → Except String M) (c : Candidate) : Option M :=
  if attempted fs c then (loadFn c).toOption else none

/-- The failure a candidate records: `some e` exactly when it is attempted
and the external load raises `e`. -/
def recordedFailure {M : Type} (fs : FileSystem)
    (loadFn : Candidate → Except String M) (c : Candidate) : Option String :=
  if attempted fs c then
    match loadFn c with
    | .ok _ => none
    | .error e => some e
  else none

/-- The last element of a list of recorded failures, seeded with a prior
default (mirrors the `last_exception` accumulator). -/
def lastOr (l : List String) (d : Option String) : Option String :=
  match l with
  | [] => d
  | e :: rest => lastOr rest (some e)

/-- The scan loop returns the first successful candidate's model, and
otherwise a 500 carrying only the last recorded failure (after the seed). -/
theorem loadAux_characterisation {M : Type} (fs : FileSystem)
    (loadFn : Candidate → Except String M) (cs : List Candidate)
    (seed : Option String) :
    loadAux fs loadFn cs seed =
      match cs.findSome? (loadSuccess fs loadFn) with
      | some m => .ok m
      | none =>
        .error { status_code := 500,
                 detail := "Model could not be loaded. Last error: " ++
                   pyShowOpt (lastOr (cs.filterMap (recordedFailure fs loadFn)) seed) } := by
  induction cs generalizing seed with
  | nil => rfl
  | cons c rest ih =>
    cases c with
    | path p =>
      by_cases hatt : fs.isDir p || fs.pathExists p
      · cases hload : loadFn (.path p) with
        | ok m =>
          simp [loadAux, hatt, hload, List.findSome?_cons, loadSuccess, attempted,
            Except.toOption]
        | error e =>
          rw [loadAux]
          simp only [hatt, if_true, hload]
          rw [ih (some e)]
          simp [List.findSome?_cons, loadSuccess, attempted, hatt, hload,
            Except.toOption, List.filterMap_cons, recordedFailure, lastOr]
      · rw [loadAux]
        simp only [hatt, if_false]
        rw [ih seed]
        simp [List.findSome?_cons, loadSuccess, attempted, hatt,
          List.filterMap_cons, recordedFailure]
    | uri u =>
      cases hload : loadFn (.uri u) with
      | ok m =>
        simp [loadAux, hload, List.findSome?_cons, loadSuccess, attempted,
          Except.toOption]
      | error e =>
        rw [loadAux]
        simp only [hload]
        rw [ih (some e)]
        simp [List.findSome?_cons, loadSuccess, attempted, hload,
          Except.toOption, List.filterMap_cons, recordedFailure, lastOr]

/-- C5: the candidate order is `MODEL_LOCAL_PATH` override, `MODEL_URI`
override, then the fixed default local paths, and `_load_model` returns the
model of the first candidate that loads successfully, swallowing earlier
failures; only when no candidate succeeds does it raise, and the raised 500
carries only the last recorded failure. -/
theorem load_model_fallback_chain {M : Type} (baseDir loc u : String)
    (fs : FileSystem) (loadFn : Candidate → Except String M)
    (hl : loc ≠ "") (hu : u ≠ "") :
    candidates baseDir (some loc) (some u) =
      [Candidate.path loc, Candidate.uri u,
       Candidate.path "model/bank_marketing_model", Candidate.path "model",
       Candidate.path (MODEL_DIR baseDir ++ "/bank_marketing_model")] ∧
    ∀ envLocal envUri : Option String,
      load_model baseDir envLocal envUri fs loadFn =
        match (candidates baseDir envLocal envUri).findSome?
            (loadSuccess fs loadFn) with
        | some m => .ok m
        | none =>
          .error { status_code := 500,
                   detail := "Model could not be loaded. Last error: " ++
                     pyShowOpt (lastOr ((candidates baseDir envLocal envUri).filterMap
                       (recordedFailure fs loadFn)) none) } := by
  constructor
  · simp [candidates, envCandidate, hl, hu, MODEL_DIR]
  · intro envLocal envUri
    exact loadAux_characterisation fs loadFn (candidates baseDir envLocal envUri) none

/-- A filesystem on which nothing exists. -/
def emptyFS : FileSystem := ⟨fun _ => false, fun _ => false⟩

/-- Witness for C5 at a concrete environment and loader: the URI candidate
is the only one attempted, its failure is the one reported. -/
theorem load_model_fallback_chain_witness :
    candidates "/app" (some "override") (some "runs:/model") =
      [Candidate.path "override", Candidate.uri "runs:/model",
       Candidate.path "model/bank_marketing_model", Candidate.path "model",
       Candidate.path (MODEL_DIR "/app" ++ "/bank_marketing_model")] ∧
    load_model "/app" (some "override") (some "runs:/model") emptyFS
        (fun _ => (Except.error "boom" : Except String Unit)) =
      .error (⟨500, "Model could not be loaded. Last error: boom"⟩ : HTTPException) := by
  have h := load_model_fallback_chain "/app" "override" "runs:/model" emptyFS
    (fun _ => (Except.error "boom" : Except String Unit)) (by decide) (by decide)
  refine ⟨h.1, ?_⟩
  rw [h.2 (some "override") (some "runs:/model")]
  rfl

/-- C10: a local-path candidate absent from disk is skipped with no load
attempt and no recorded failure, so with no overrides and no default path
present the final 500 reports `Last error: None` — for every loader. -/
theorem load_model_skips_missing_paths (fs : FileSystem) {M : Type}
    (loadFn : Candidate → Except String M) (p : String)
    (rest : List Candidate) (lastExc : Option String)
    (habs : attempted fs (Candidate.path p) = false) :
    loadAux fs loadFn (Candidate.path p :: rest) lastExc =
      loadAux fs loadFn rest lastExc ∧
    ∀ lf : Candidate → Except String M,
      load_model "/app" none none emptyFS lf =
        .error { status_code := 500,
                 detail := "Model could not be loaded. Last error: None" } := by
  constructor
  · simp only [attempted] at habs
    simp [loadAux, habs]
  · intro lf
    rfl

/-- Witness for C10: a concrete absent path is skipped, and the all-absent
configuration ends in "Last error: None". -/
theorem load_model_skips_missing_paths_witness :
    loadAux emptyFS (fun _ => (Except.error "boom" : Except String Unit))
        (Candidate.path "missing" :: [Candidate.uri "u"]) none =
      loadAux emptyFS (fun _ => (Except.error "boom" : Except String Unit))
        [Candidate.uri "u"] none ∧
    ∀ lf : Candidate → Except String Unit,
      load_model "/app" none none emptyFS lf =
        .error { status_code := 500,
                 detail := "Model could not be loaded. Last error: None" } :=
  load_model_skips_missing_paths emptyFS
    (fun _ => (Except.error "boom" : Except String Unit)) "missing"
    [Candidate.uri "u"] none (by decide)

/-! ## Preprocessing builder (`src/features/preprocessing.py`) -/

/-- `TARGET_COL`. -/
def TARGET_COL : String := "y"

/-- `CATEGORICAL_COLS`. -/
def CATEGORICAL_COLS : List String :=
  ["job", "marital", "education", "default", "housing", "loan", "contact",
   "month", "poutcome"]

/-- `NUMERIC_COLS`. -/
def NUMERIC_COLS : List String :=
  ["age", "balance", "day", "duration", "campaign", "pdays", "previous",
   "log_campaign", "log_duration", "is_balance_positive",
   "has_previous_contact"]

/-- One step of a column pipeline, as configured in
`build_preprocessing_pipeline`: `SimpleImputer(strategy=...)`,
`StandardScaler()`, or `OneHotEncoder(handle_unknown=..., sparse_output=...)`. -/
inductive TransformStep where
  | simpleImputer (strategy : String)
  | standardScaler
  | oneHotEncoder (handle_unknown : String) (sparse_output : Bool)
deriving DecidableEq

/-- One entry of the `ColumnTransformer`: its name, its named pipeline steps
and the columns it applies to. -/
structure ColumnGroup where
  name : String
  steps : List (String × TransformStep)
  columns : List String
deriving DecidableEq

/-- `build_preprocessing_pipeline()`: the `ColumnTransformer` with the
numeric pipeline (median imputation, standardisation) over `NUMERIC_COLS`
and the categorical pipeline (most-frequent imputation, one-hot encoding
with `handle_unknown="ignore"`) over `CATEGORICAL_COLS`. -/
def build_preprocessing_pipeline : List ColumnGroup :=
  [{ name := "numeric",
     steps := [("imputer", .simpleImputer "median"), ("scaler", .standardScaler)],
     columns := NUMERIC_COLS },
   { name := "categorical",
     steps := [("imputer", .simpleImputer "most_frequent"),
               ("encoder", .oneHotEncoder "ignore" false)],
     columns := CATEGORICAL_COLS }]

/-- Modelled from the spec: the transform of a fitted scikit-learn
`OneHotEncoder(handle_unknown=h)` on one categorical value, given the
category list learned in `fit`. A known category maps to its indicator
vector; an unknown one fails unless `handle_unknown="ignore"`, in which case
"unknown categories at inference time produce an all-zero encoding rather
than failing". The encoder itself lives in the external library, outside
this repository. -/
def oneHotTransform (handle_unknown : String) (categories : List String)
    (v : String) : Option (List ℕ) :=
  if v ∈ categories then
    some (categories.map fun c => if c = v then 1 else 0)
  else if handle_unknown = "ignore" then
    some (categories.map fun _ => 0)
  else none

/-- C6: the builder declares exactly 9 categorical and 11 numeric columns
(the numeric group containing the four engineered columns), numeric columns
get median imputation then standardisation, categorical columns get
most-frequent imputation then one-hot encoding configured to tolerate unseen
categories, and that configuration encodes an unseen category as the all-zero
vector instead of failing. -/
theorem build_preprocessing_pipeline_contract :
    CATEGORICAL_COLS.length = 9 ∧ NUMERIC_COLS.length = 11 ∧
    "log_campaign" ∈ NUMERIC_COLS ∧ "log_duration" ∈ NUMERIC_COLS ∧
    "is_balance_positive" ∈ NUMERIC_COLS ∧
    "has_previous_contact" ∈ NUMERIC_COLS ∧
    build_preprocessing_pipeline =
      [⟨"numeric", [("imputer", .simpleImputer "median"),
          ("scaler", .standardScaler)], NUMERIC_COLS⟩,
       ⟨"categorical", [("imputer", .simpleImputer "most_frequent"),
          ("encoder", .oneHotEncoder "ignore" false)], CATEGORICAL_COLS⟩] ∧
    ∀ (categories : List String) (v : String),
      v ∉ categories →
        oneHotTransform "ignore" categories v =
          some (categories.map fun _ => 0) := by
  refine ⟨rfl, rfl, by decide, by decide, by decide, by decide, rfl, ?_⟩
  intro categories v hv
  simp [oneHotTransform, hv]

/-- Witness for C6: the unseen category "retired-abroad" against a concrete
fitted category list encodes as all zeros. -/
theorem build_preprocessing_pipeline_contract_witness :
    CATEGORICAL_COLS.length = 9 ∧
    oneHotTransform "ignore" ["married", "single", "divorced"]
        "retired-abroad" = some [0, 0, 0] := by
  have h := build_preprocessing_pipeline_contract
  refine ⟨h.1, ?_⟩
  have h2 := h.2.2.2.2.2.2.2 ["married", "single", "divorced"] "retired-abroad"
    (by decide)
  simpa using h2

/-! ## Hyperparameter search (`perform_hyperparameter_tuning` in
`src/training/train.py`) -/

/-- The `param_grid` handed to `GridSearchCV`: `model__C` over three
regularisation strengths and `model__penalty` over the single value "l2"
(floats 0.1, 1.0, 10.0 are the exact rationals 1/10, 1, 10). -/
structure ParamGrid where
  model_C : List ℚ
  model_penalty : List String
deriving DecidableEq

/-- The literal grid of `perform_hyperparameter_tuning`. -/
def param_grid : ParamGrid :=
  { model_C := [1/10, 1, 10], model_penalty := ["l2"] }

/-- The `GridSearchCV` configuration built by `perform_hyperparameter_tuning`:
the grid, `scoring="roc_auc"`, and `cv=5`. -/
structure GridSearchConfig where
  grid : ParamGrid
  scoring : String
  cv : ℕ
deriving DecidableEq

/-- The search configuration of `perform_hyperparameter_tuning`. -/
def perform_hyperparameter_tuning : GridSearchConfig :=
  { grid := param_grid, scoring := "roc_auc", cv := 5 }

/-- One point of the grid: a value for `model__C` and one for
`model__penalty`. -/
structure GridPoint where
  C : ℚ
  penalty : String
deriving DecidableEq

instance : Inhabited GridPoint := ⟨⟨1, "l2"⟩⟩

/-- The cartesian product of the grid's parameter lists — the candidate
configurations `GridSearchCV` fits. -/
def gridPoints (g : ParamGrid) : List GridPoint :=
  g.model_C.flatMap fun c => g.model_penalty.map fun p => ⟨c, p⟩

/-- Modelled from the spec: `GridSearchCV` "selects the best-performing
configuration" — the candidate with the maximal cross-validated score (the
search itself lives in the external library, outside this repository). -/
def selectBest (g : ParamGrid) (score : GridPoint → ℚ) : GridPoint :=
  (gridPoints g).tail.foldl
    (fun best c => if score best < score c then c else best)
    (gridPoints g).headI

/-- C7 counterexample: the grid does not vary the penalty type — its
`model__penalty` axis is the single value "l2". -/
theorem param_grid_single_penalty :
    perform_hyperparameter_tuning.grid.model_penalty = ["l2"] ∧
    perform_hyperparameter_tuning.grid.model_penalty.length = 1 ∧
    ¬ 1 < perform_hyperparameter_tuning.grid.model_penalty.length := by
  refine ⟨rfl, rfl, by decide⟩

/-- C7 (amended): the search is a grid search scored by AUC with 5-fold
cross-validation, whose grid spans three regularisation strengths but fixes
the penalty type to the single value "l2", and the best-scoring candidate of
that grid is selected. -/
theorem perform_hyperparameter_tuning_contract (score : GridPoint → ℚ) :
    perform_hyperparameter_tuning.scoring = "roc_auc" ∧
    perform_hyperparameter_tuning.cv = 5 ∧
    perform_hyperparameter_tuning.grid.model_C = [1/10, 1, 10] ∧
    perform_hyperparameter_tuning.grid.model_penalty = ["l2"] ∧
    gridPoints perform_hyperparameter_tuning.grid =
      [⟨1/10, "l2"⟩, ⟨1, "l2"⟩, ⟨10, "l2"⟩] ∧
    (selectBest perform_hyperparameter_tuning.grid score = ⟨1/10, "l2"⟩ ∨
     selectBest perform_hyperparameter_tuning.grid score = ⟨1, "l2"⟩ ∨
     selectBest perform_hyperparameter_tuning.grid score = ⟨10, "l2"⟩) ∧
    score ⟨1/10, "l2"⟩ ≤ score (selectBest perform_hyperparameter_tuning.grid score) ∧
    score ⟨1, "l2"⟩ ≤ score (selectBest perform_hyperparameter_tuning.grid score) ∧
    score ⟨10, "l2"⟩ ≤ score (selectBest perform_hyperparameter_tuning.grid score) := by
  refine ⟨rfl, rfl, rfl, rfl, rfl, ?_⟩
  have e : selectBest perform_hyperparameter_tuning.grid score =
      if score (if score (⟨1/10, "l2"⟩ : GridPoint) < score (⟨1, "l2"⟩ : GridPoint)
            then (⟨1, "l2"⟩ : GridPoint) else ⟨1/10, "l2"⟩) <
          score (⟨10, "l2"⟩ : GridPoint)
        then (⟨10, "l2"⟩ : GridPoint)
        else if score (⟨1/10, "l2"⟩ : GridPoint) < score (⟨1, "l2"⟩ : GridPoint)
          then ⟨1, "l2"⟩ else ⟨1/10, "l2"⟩ := rfl
  rw [e]
  by_cases h1 : score (⟨1/10, "l2"⟩ : GridPoint) < score (⟨1, "l2"⟩ : GridPoint)
  · simp only [if_pos h1]
    by_cases h2 : score (⟨1, "l2"⟩ : GridPoint) < score (⟨10, "l2"⟩ : GridPoint)
    · simp only [if_pos h2]
      exact ⟨Or.inr (Or.inr trivial), le_of_lt (lt_trans h1 h2), le_of_lt h2, le_refl _⟩
    · simp only [if_neg h2]
      exact ⟨Or.inr (Or.inl trivial), le_of_lt h1, le_refl _, not_lt.mp h2⟩
  · simp only [if_neg h1]
    by_cases h2 : score (⟨1/10, "l2"⟩ : GridPoint) < score (⟨10, "l2"⟩ : GridPoint)
    · simp only [if_pos h2]
      exact ⟨Or.inr (Or.inr trivial), le_of_lt h2,
        le_trans (not_lt.mp h1) (le_of_lt h2), le_refl _⟩
    · simp only [if_neg h2]
      exact ⟨Or.inl trivial, le_refl _, not_lt.mp h1, not_lt.mp h2⟩

/-! ## Cleaning (`src/data/cleaning.py`) -/

/-- `UNKNOWN_TOKEN`. -/
def UNKNOWN_TOKEN : String := "unknown"

/-- A cell of the raw table: a string, a number, or the missing-value marker
`pd.NA`. -/
inductive Cell where
  | str (s : String)
  | num (q : ℚ)
  | na
deriving DecidableEq

/-- `df.replace(UNKNOWN_TOKEN, pd.NA)` on one cell: only cells equal to the
literal string "unknown" become the missing marker. -/
def replaceUnknown (c : Cell) : Cell :=
  if c = .str UNKNOWN_TOKEN then .na else c

/-- Python's `str.strip()` on a character list: whitespace dropped from the
front, then from the back. -/
def pyStripChars (l : List Char) : List Char :=
  (l.dropWhile Char.isWhitespace).rdropWhile Char.isWhitespace

/-- Python's `str.strip()`. -/
def pyStrip (s : String) : String := ⟨pyStripChars s.data⟩

/-- pandas `astype(str)` on one cell: a string stays itself, the missing
marker prints as "<NA>", a number goes through the external float formatter
`numToStr`. -/
def astypeStr (numToStr : ℚ → String) : Cell → String
  | .str s => s
  | .na => "<NA>"
  | .num q => numToStr q

/-- A table with its label column `y` alongside the remaining columns. -/
structure Table where
  features : List (List Cell)
  y : List Cell
deriving DecidableEq

/-- `clean_dataset`: replace "unknown" by `pd.NA` in every column (the label
column included), then normalise the label column with
`astype(str).str.strip()`. -/
def clean_dataset (numToStr : ℚ → String) (df : Table) : Table :=
  { features := df.features.map (List.map replaceUnknown)
    y := df.y.map fun c =>
      .str (pyStrip (astypeStr numToStr (replaceUnknown c))) }

theorem replaceUnknown_idem (c : Cell) :
    replaceUnknown (replaceUnknown c) = replaceUnknown c := by
  by_cases hc : c = .str UNKNOWN_TOKEN <;> simp [replaceUnknown, hc]

theorem pyStripChars_idem (l : List Char) :
    pyStripChars (pyStripChars l) = pyStripChars l := by
  unfold pyStripChars
  set p := Char.isWhitespace with hp
  set a := l.dropWhile p with ha
  have hb : (a.rdropWhile p).dropWhile p = a.rdropWhile p := by
    rw [List.dropWhile_eq_self_iff]
    intro hl
    have hpre := List.rdropWhile_prefix p a
    have hlen : 0 < a.length := lt_of_lt_of_le hl hpre.length_le
    have hget : (a.rdropWhile p).get ⟨0, hl⟩ = a.get ⟨0, hlen⟩ :=
      hpre.get_eq hl
    rw [hget]
    exact List.dropWhile_get_zero_not p l hlen
  rw [hb, List.rdropWhile_idempotent]

theorem pyStrip_idem (s : String) : pyStrip (pyStrip s) = pyStrip s := by
  simp [pyStrip, pyStripChars_idem]

/-- C8 counterexample: cleaning is not idempotent. On the table whose label
column holds the single string " unknown" (note the blank), the first pass
trims it to "unknown" and the second pass then replaces it by `pd.NA` and
re-stringifies that to "<NA>". -/
theorem clean_dataset_not_idempotent :
    clean_dataset (fun _ => "0") (clean_dataset (fun _ => "0")
        ⟨[], [Cell.str " unknown"]⟩) ≠
      clean_dataset (fun _ => "0") ⟨[], [Cell.str " unknown"]⟩ ∧
    clean_dataset (fun _ => "0") ⟨[], [Cell.str " unknown"]⟩ =
      ⟨[], [Cell.str "unknown"]⟩ ∧
    clean_dataset (fun _ => "0") (clean_dataset (fun _ => "0")
        ⟨[], [Cell.str " unknown"]⟩) =
      ⟨[], [Cell.str "<NA>"]⟩ := by
  refine ⟨?_, ?_, ?_⟩ <;> decide

/-- C8 (amended): `clean_dataset` is idempotent on every table in which no
label cell normalises (unknown-replacement, stringification, trimming) to the
exact string "unknown" while not already being that exact string — in
particular on every table whose label strings carry no surrounding
whitespace around the token. -/
theorem clean_dataset_idempotent (numToStr : ℚ → String) (df : Table)
    (h : ∀ c ∈ df.y,
      pyStrip (astypeStr numToStr (replaceUnknown c)) ≠ UNKNOWN_TOKEN) :
    clean_dataset numToStr (clean_dataset numToStr df) =
      clean_dataset numToStr df := by
  unfold clean_dataset
  refine congrArg₂ Table.mk ?_ ?_
  · simp [List.map_map, Function.comp, replaceUnknown_idem]
  · simp only [List.map_map]
    apply List.map_congr_left
    intro c hc
    have hne := h c hc
    simp only [Function.comp_apply]
    set t := pyStrip (astypeStr numToStr (replaceUnknown c)) with ht
    have hcell : ¬ (Cell.str t = Cell.str UNKNOWN_TOKEN) := by
      intro hcon
      injection hcon with h2
      exact hne h2
    have h1 : replaceUnknown (Cell.str t) = Cell.str t := by
      simp only [replaceUnknown]
      rw [if_neg hcell]
    rw [h1]
    show Cell.str (pyStrip t) = Cell.str t
    rw [ht, pyStrip_idem]

/-- Witness for C8 on a concrete well-formed table (labels "yes"/"no", a
numeric column and an "unknown" categorical cell). -/
theorem clean_dataset_idempotent_witness :
    clean_dataset (fun _ => "3.0") (clean_dataset (fun _ => "3.0")
        ⟨[[Cell.num 3, Cell.str "unknown"]], [Cell.str "yes", Cell.str "no"]⟩) =
      clean_dataset (fun _ => "3.0")
        ⟨[[Cell.num 3, Cell.str "unknown"]], [Cell.str "yes", Cell.str "no"]⟩ :=
  clean_dataset_idempotent (fun _ => "3.0")
    ⟨[[Cell.num 3, Cell.str "unknown"]], [Cell.str "yes", Cell.str "no"]⟩
    (by decide)

/-! ## Packaging (`scripts/package_model.py`) -/

/-- The outcome of `scripts/package_model.py main`: the archive base path
handed to `shutil.make_archive` (which appends ".zip") together with the
archive's root directory. -/
structure PackageResult where
  archive_base : String
  format : String
  root_dir : String
deriving DecidableEq

/-- `main(output_dir)` of `scripts/package_model.py`: with
`model_path = MODEL_DIR / "bank_marketing_model"`, raise `FileNotFoundError`
directing the operator to training when `model_path` does not exist,
otherwise create the output directory and build the zip archive
`output_dir / "bank_marketing_model"` + ".zip" from `model_path`.
`fs` tells whether `model_path` exists. -/
def package_model_main (baseDir : String) (fs : FileSystem)
    (output_dir : String) : Except String PackageResult :=
  let model_path := MODEL_DIR baseDir ++ "/bank_marketing_model"
  if ¬ fs.pathExists model_path then
    .error ("Expected model directory at " ++ model_path ++
      ". Run scripts/train_model.py first.")
  else
    .ok { archive_base := output_dir ++ "/bank_marketing_model",
          format := "zip",
          root_dir := model_path }

/-- C9: packaging produces the zip archive at the target path when the
persisted model directory exists, and otherwise fails with the descriptive
error that directs the operator to run training first. -/
theorem package_model_main_contract (baseDir output_dir : String)
    (fs : FileSystem) :
    package_model_main baseDir fs output_dir =
      (if fs.pathExists (MODEL_DIR baseDir ++ "/bank_marketing_model") then
        .ok { archive_base := output_dir ++ "/bank_marketing_model",
              format := "zip",
              root_dir := MODEL_DIR baseDir ++ "/bank_marketing_model" }
      else
        .error ("Expected model directory at " ++
          (MODEL_DIR baseDir ++ "/bank_marketing_model") ++
          ". Run scripts/train_model.py first.")) := by
  by_cases hex : fs.pathExists (MODEL_DIR baseDir ++ "/bank_marketing_model") <;>
    simp [package_model_main, hex]

end BankApp
